import Mathlib

/-!
Shallow embedding of the Medical_Chat_Agent repository
(src/appointment_agent.py, src/notification.py, src/rag_setup.py,
src/web/main.py) for checking the natural-language specification.

Python strings are modelled as Lean `String`, timestamps as `Nat`
(an abstract slot key), the appointments table as a list of rows, and
each `with get_db_connection()` block as one atomic transaction value.
External providers (Twilio, SMTP, the embedding/vector-store libraries,
the fake chat model) are modelled by their outcomes, passed in as
explicit parameters, exactly as the spec treats them (contract only).
-/

/- ### Generic character-sequence helpers (Python `str.startswith`, `in`) -/

/-- Bool test that `pat` occurs at the head of `l` (Python `startswith`). -/
def seqStarts : List Char → List Char → Bool
  | [], _ => true
  | _ :: _, [] => false
  | p :: ps, h :: hs => p == h && seqStarts ps hs

/-- Bool test that `pat` occurs contiguously somewhere in `l`
(Python `pat in l` on strings). -/
def seqContains (pat : List Char) : List Char → Bool
  | [] => seqStarts pat []
  | h :: hs => seqStarts pat (h :: hs) || seqContains pat hs

/-- Python `s.lower()` restricted to its per-character action. -/
def lowerData (s : String) : List Char :=
  s.data.map Char.toLower

/- ### notification.py: contact-info validation (lines 34-38) -/

/-- Body of the phone regex after the optional plus sign:
`[1-9]\d{1,14}` as a full match. -/
def phoneBody : List Char → Bool
  | [] => false
  | c :: rest =>
    (c.isDigit && c != ('0')) && decide (1 ≤ rest.length) &&
      decide (rest.length ≤ 14) && rest.all Char.isDigit

/-- Full-string match of the SMS pattern `^\+?[1-9]\d{1,14}$`
(notification.py line 37). -/
def validPhone (s : String) : Bool :=
  match s.data with
  | c :: rest => if c == ('+') then phoneBody rest else phoneBody (c :: rest)
  | [] => false

/-- Split at the unique at-sign: `some (before, after)` when the list has
exactly one at-sign, `none` otherwise. -/
def emailSplit : List Char → Option (List Char × List Char)
  | [] => none
  | c :: rest =>
    if c == ('@') then
      if rest.contains ('@') then none else some ([], rest)
    else
      match emailSplit rest with
      | some p => some (c :: p.1, p.2)
      | none => none

/-- Bool test that the list has a dot that is neither its first nor its
last character, i.e. the domain matches `[^@]+\.[^@]+`. -/
def hasInnerDot (l : List Char) : Bool :=
  match l with
  | [] => false
  | _ :: rest => rest.dropLast.contains ('.')

/-- Full-string match of the email pattern `^[^@]+@[^@]+\.[^@]+$`
(notification.py line 38). -/
def validEmail (s : String) : Bool :=
  match emailSplit s.data with
  | some p => !p.1.isEmpty && hasInnerDot p.2
  | none => false

/-- `Notifier.validate_contact_info` (notification.py lines 34-38). -/
def validate_contact_info (dest : String) (channel : String) : Bool :=
  if channel == ("sms") then validPhone dest else validEmail dest

/- ### Spec-side identifier formats (spec sections 3 and 8), used only to
compare the spec's words with the validation found in the source. -/

/-- Written from the spec's words: `PAT-` followed by exactly 4 digits,
full-string match. -/
def specPatientFormat (s : String) : Bool :=
  seqStarts (("PAT-").data) s.data &&
    (s.data.drop 4).length == 4 && (s.data.drop 4).all Char.isDigit &&
    s.data.length == 8

/-- Written from the spec's words: `DR-` followed by exactly 3 digits,
full-string match. -/
def specDoctorFormat (s : String) : Bool :=
  seqStarts (("DR-").data) s.data &&
    (s.data.drop 3).length == 3 && (s.data.drop 3).all Char.isDigit &&
    s.data.length == 6

/- ### appointment_agent.py, first draft (lines 54-114):
`handle_appointment` and the graph routing -/

/-- Outcome of the insert transaction in `handle_appointment`
(appointment_agent.py lines 79-96): either the row from `RETURNING
id, scheduled_time`, or a raised `psycopg2.Error` with its text. -/
inductive DbOutcome where
  | ok (returned_id : Nat) (scheduled_time : String)
  | err (msg : String)
deriving DecidableEq, Repr

/-- The patient-id gate of `handle_appointment` (line 67): the id must
be present, truthy, and start with `PAT-`; nothing else is checked. -/
def patient_gate (pid : Option String) : Bool :=
  match pid with
  | none => false
  | some p => p != ("") && seqStarts (("PAT-").data) p.data

/-- The literal reply of the failed patient-id gate (line 68). -/
def invalid_id_msg : String := "Invalid patient ID format. Must start with PAT-"

/-- `valid_types` (line 71), in source order; Python iterates the set in
an unspecified order, which only affects the listing order below. -/
def valid_types : List String := ["checkup", "consultation", "follow-up", "emergency"]

/-- The appointment-type gate (line 72): `state.get('appointment_type')
not in valid_types`, with a missing type failing the gate. -/
def type_gate (t : Option String) : Bool :=
  match t with
  | some ty => valid_types.contains ty
  | none => false

/-- The reply of the failed type gate (lines 73-75). -/
def invalid_type_msg : String :=
  ("Invalid appointment type. Choose from: ") ++ String.intercalate (", ") valid_types

/-- `handle_appointment` (appointment_agent.py lines 54-96). Returns the
reply text and a flag recording whether the appointments store was
reached (the `get_db_connection` block of lines 79-87). -/
def handle_appointment (pid t : Option String) (db : DbOutcome) : String × Bool :=
  if !patient_gate pid then (invalid_id_msg, false)
  else if !type_gate t then (invalid_type_msg, false)
  else
    match db with
    | DbOutcome.ok i time =>
      (("Appointment ") ++ Nat.repr i ++ (" booked for ") ++ time, true)
    | DbOutcome.err m => (("Booking failed: ") ++ m, true)

/-- The intent signal shared by the conditional edge
(appointment_agent.py line 107) and the notifier trigger in
src/web/main.py line 87: the word `book` occurs in the lower-cased
text. -/
def booking_intent (content : String) : Bool :=
  seqContains (("book").data) (lowerData content)

/-- Conversation state of the first-draft agent: message contents in
order, retrieved context, and the two booking fields. -/
structure AgState where
  messages : List String
  context : String
  patient_id : Option String
  appointment_type : Option String
deriving DecidableEq, Repr

/-- One turn of the compiled graph (appointment_agent.py lines 99-114):
entry `retrieve` (line 113), edge retrieve → generate (line 109), the
conditional edge on `book` (lines 105-108), and book_appointment → END
(line 110). The retriever and the draft reply of the fake chat model
are passed in as contract-level parameters; a raised retrieval error
is an `Except.error`. Returns the final state and the visited nodes. -/
def runTurn (retriever : String → Except String String) (draft : String)
    (db : DbOutcome) (st : AgState) : Except String (AgState × List String) :=
  match st.messages.getLast? with
  | none => Except.error ("IndexError: list index out of range")
  | some last =>
    match retriever last with
    | Except.error e => Except.error e
    | Except.ok ctx =>
      let st2 : AgState :=
        { st with context := ctx, messages := st.messages ++ [draft] }
      match st2.messages.getLast? with
      | none => Except.error ("IndexError: list index out of range")
      | some c =>
        if booking_intent c then
          let r := handle_appointment st2.patient_id st2.appointment_type db
          Except.ok ({ st2 with messages := st2.messages ++ [r.1] },
            [("retrieve"), ("generate"), ("book_appointment")])
        else
          Except.ok (st2, [("retrieve"), ("generate")])

/-- The fixed reply of the generic exception branch of the websocket
endpoint (src/web/main.py line 98). -/
def websocket_generic_error_reply : String := "Sorry, we encountered an error"

/-- The reply of the `HTTPException` branch of the websocket endpoint
(src/web/main.py line 94). -/
def websocket_http_error_reply (detail : String) : String :=
  ("Error: ") ++ detail

/- ### appointment_agent.py, second draft (lines 142-218): the
appointments table and the booking graph -/

/-- One row of the `appointments` table (insert at lines 185-191);
`uuid.uuid4()` is abstracted to a caller-chosen Nat key. -/
structure Appointment where
  appt_id : Nat
  patient_id : String
  doctor_id : String
  slot : Nat
  status : String
deriving DecidableEq, Repr

/-- The appointments table. -/
abbrev Store := List Appointment

/-- The `SELECT COUNT(*)` of `check_availability` (lines 174-177). -/
def countNonCancelled (db : Store) (d : String) (s : Nat) : Nat :=
  (db.filter (fun r =>
    decide (r.doctor_id = d ∧ r.slot = s ∧ r.status ≠ ("cancelled")))).length

/-- `check_availability` (appointment_agent.py lines 171-179): one
transaction on its own connection; returns the flag and the store it
leaves behind (unchanged: the body only reads). -/
def check_availability (db : Store) (d : String) (s : Nat) : Bool × Store :=
  (countNonCancelled db d s == 0, db)

/-- `create_appointment` (appointment_agent.py lines 181-193): one
transaction on its own connection inserting a `pending` row
unconditionally; returns the id and the new store. -/
def create_appointment (db : Store) (i : Nat) (p d : String) (s : Nat) :
    Nat × Store :=
  (i, db ++ [⟨i, p, d, s, ("pending")⟩])

/-- The inputs of one booking attempt through the second-draft graph. -/
structure BookCtx where
  new_id : Nat
  patient : String
  doctor : String
  slot : Nat
deriving DecidableEq, Repr

/-- Progress of one booking attempt: 0 = before its check transaction,
1 = between check and insert, 2 = finished. -/
structure BookRunSt where
  pc : Nat
  avail : Bool
  result : Option Nat
deriving DecidableEq, Repr

/-- A booking attempt before its first transaction. -/
def bookInit : BookRunSt := ⟨0, false, none⟩

/-- One atomic transaction of a booking attempt, following the graph
edges of lines 206-215: collect_details → check_availability →
(available → confirm_booking → create_appointment; unavailable → END).
The identity nodes issue no transaction and are elided. -/
def bookStep (db : Store) (a : BookRunSt) (c : BookCtx) : Store × BookRunSt :=
  match a.pc with
  | 0 =>
    let r := check_availability db c.doctor c.slot
    (r.2, ⟨1, r.1, none⟩)
  | 1 =>
    if a.avail then
      let r := create_appointment db c.new_id c.patient c.doctor c.slot
      (r.2, ⟨2, a.avail, some r.1⟩)
    else (db, ⟨2, a.avail, none⟩)
  | _ => (db, a)

/-- Interleaved execution of two booking attempts: the schedule picks,
transaction by transaction, which attempt runs next (false = first
attempt, true = second). Transactions are atomic; nothing else is,
because each runs on its own connection. -/
def runSched (c1 c2 : BookCtx) :
    List Bool → Store × BookRunSt × BookRunSt → Store × BookRunSt × BookRunSt
  | [], w => w
  | pick :: rest, (db, a1, a2) =>
    if pick then
      let r := bookStep db a2 c2
      runSched c1 c2 rest (r.1, a1, r.2)
    else
      let r := bookStep db a1 c1
      runSched c1 c2 rest (r.1, r.2, a2)

/-- One booking attempt run to completion with no interleaving. -/
def booking_attempt (db : Store) (c : BookCtx) : Option Nat × Store :=
  let r1 := bookStep db bookInit c
  let r2 := bookStep r1.1 r1.2 c
  (r2.2.result, r2.1)

/- ### rag_setup.py (lines 31-103): document loading and setup -/

/-- One loaded document (page content plus its source path). -/
structure RagDoc where
  page_content : String
  source : String
deriving DecidableEq, Repr

/-- `load_documents` (rag_setup.py lines 31-60): returns `[]` when the
loader found nothing, otherwise keeps the documents whose stripped
page content is non-empty. The directory walk and PDF parsing are the
external loader, modelled by the list it produced. -/
def load_documents (docs : List RagDoc) : List RagDoc :=
  if docs.isEmpty then []
  else docs.filter (fun d => d.page_content.trim != (""))

/-- `setup_knowledge_base` (rag_setup.py lines 62-96): raises
`ValueError` when no valid documents remain (line 70); the splitter,
embeddings and FAISS store are external libraries modelled as
succeeding, so the retriever is represented by its corpus. -/
def setup_knowledge_base (docs : List RagDoc) : Except String (List RagDoc) :=
  let valid := load_documents docs
  if valid.isEmpty then Except.error ("No valid documents available for processing")
  else Except.ok valid

/-- The module-level initializer of rag_setup.py (lines 99-103): the
exception is caught and the retriever left as `None`. -/
def clinic_retriever_init (docs : List RagDoc) : Option (List RagDoc) :=
  match setup_knowledge_base docs with
  | Except.ok r => some r
  | Except.error _ => none

/- ### notification.py (lines 20-109): the Notifier -/

/-- A notification channel. -/
inductive Channel where
  | sms
  | email
deriving DecidableEq, Repr

/-- One call handed to an external delivery provider: the channel, the
recipient, and the body text (`_send_sms` line 86 / `_send_email`
line 101; the fixed email subject is not repeated here). -/
structure SendAttempt where
  channel : Channel
  dest : String
  body : String
deriving DecidableEq, Repr

/-- The Python exceptions that cross the Notifier's internal
boundaries. -/
inductive PyExc where
  | valueError (msg : String)
  | typeError (msg : String)
  | deliveryError (msg : String)
  | retryError (last : PyExc)
deriving DecidableEq, Repr

/-- The environment variables the Notifier reads per call:
`PREFERRED_CHANNEL` (with its `sms` default applied), `DOCTOR_PHONE`
and `DOCTOR_EMAIL` (`none` = unset). -/
structure NotifyEnv where
  preferred_channel : String
  doctor_phone : Option String
  doctor_email : Option String
deriving DecidableEq, Repr

/-- Whether each external provider delivers; a false flag means every
send on that channel raises. -/
structure ChannelHealth where
  sms_ok : Bool
  email_ok : Bool
deriving DecidableEq, Repr

/-- `_send_sms` with its own retry wrapper (notification.py lines
83-92, `stop_after_attempt(2)`): one provider call on success, two
identical provider calls then a raised error on failure. Returns the
provider-call trace and the outcome. -/
def send_sms_try (h : ChannelHealth) (dest body : String) :
    List SendAttempt × Except PyExc String :=
  if h.sms_ok then ([⟨Channel.sms, dest, body⟩], Except.ok ("sms delivered"))
  else ([⟨Channel.sms, dest, body⟩, ⟨Channel.sms, dest, body⟩],
    Except.error (PyExc.deliveryError ("twilio send failed")))

/-- `_send_email` with its own retry wrapper (notification.py lines
94-109, `stop_after_attempt(2)`); body records the message content. -/
def send_email_try (h : ChannelHealth) (dest content : String) :
    List SendAttempt × Except PyExc String :=
  if h.email_ok then ([⟨Channel.email, dest, content⟩], Except.ok ("Email delivered"))
  else ([⟨Channel.email, dest, content⟩, ⟨Channel.email, dest, content⟩],
    Except.error (PyExc.deliveryError ("smtp send failed")))

/-- `_send_sms_with_fallback` (notification.py lines 61-70): on an SMS
error, fall back to email once when `DOCTOR_EMAIL` is set, truthy and
valid; otherwise re-raise the SMS error. -/
def send_sms_with_fallback (env : NotifyEnv) (h : ChannelHealth)
    (dest body : String) : List SendAttempt × Except PyExc String :=
  match send_sms_try h dest body with
  | (t, Except.ok r) => (t, Except.ok r)
  | (t, Except.error e) =>
    match env.doctor_email with
    | some em =>
      if em != ("") && validate_contact_info em ("email") then
        let r2 := send_email_try h em body
        (t ++ r2.1, r2.2)
      else (t, Except.error e)
    | none => (t, Except.error e)

/-- `_send_email_with_fallback` as defined (notification.py lines
72-81): on an email error, fall back to SMS once with the bounded
preview `subject ++ ": " ++ content[:100] ++ "..."` when
`DOCTOR_PHONE` is set, truthy and valid; otherwise re-raise. (Its
only call site passes two arguments instead of three, see below.) -/
def send_email_with_fallback (env : NotifyEnv) (h : ChannelHealth)
    (dest subject content : String) : List SendAttempt × Except PyExc String :=
  match send_email_try h dest content with
  | (t, Except.ok r) => (t, Except.ok r)
  | (t, Except.error e) =>
    match env.doctor_phone with
    | some ph =>
      if ph != ("") && validate_contact_info ph ("sms") then
        let r2 := send_sms_try h ph (subject ++ (": ") ++ content.take 100 ++ ("..."))
        (t ++ r2.1, r2.2)
      else (t, Except.error e)
    | none => (t, Except.error e)

/-- One invocation of the body of `send_notification` (notification.py
lines 41-59, without its outer retry wrapper). The `doctor_id`
argument is ignored by the source, so it is not modelled. The email
branch reproduces line 56 as written: `_send_email_with_fallback` is
called with two arguments but declared with three, so Python raises
`TypeError` inside the `try` before any provider call. -/
def send_notification_once (env : NotifyEnv) (h : ChannelHealth)
    (message : String) : List SendAttempt × Except PyExc (String × String) :=
  if message == ("") || decide (message.length > 500) then
    ([], Except.error (PyExc.valueError ("Invalid message length")))
  else
    let channel := env.preferred_channel
    match (if channel == ("sms") then env.doctor_phone else env.doctor_email) with
    | none =>
      ([], Except.error (PyExc.typeError ("expected string or bytes-like object")))
    | some contact =>
      if !validate_contact_info contact channel then
        ([], Except.ok (("error"), ("Invalid contact information")))
      else
        let attempt :=
          if channel == ("sms") then send_sms_with_fallback env h contact message
          else ([], Except.error (PyExc.typeError
            ("_send_email_with_fallback() missing 1 required positional argument")))
        match attempt with
        | (t, Except.ok r) => (t, Except.ok (("success"), r))
        | (t, Except.error _) =>
          (t, Except.ok (("error"), ("Notification delivery failed")))

/-- `send_notification` with its tenacity wrapper (notification.py line
40, `stop_after_attempt(3)`): the body is re-invoked on any raised
exception, up to three invocations, after which a `RetryError`
wrapping the last exception is raised. Returns the invocation count,
the accumulated provider-call trace, and the outcome. -/
def send_notification (env : NotifyEnv) (h : ChannelHealth) (message : String) :
    Nat × List SendAttempt × Except PyExc (String × String) :=
  match send_notification_once env h message with
  | (t1, Except.ok r) => (1, t1, Except.ok r)
  | (t1, Except.error _) =>
    match send_notification_once env h message with
    | (t2, Except.ok r) => (2, t1 ++ t2, Except.ok r)
    | (t2, Except.error _) =>
      match send_notification_once env h message with
      | (t3, Except.ok r) => (3, t1 ++ t2 ++ t3, Except.ok r)
      | (t3, Except.error e) =>
        (3, t1 ++ t2 ++ t3, Except.error (PyExc.retryError e))

/-- A 501-character message, for the oversized-message precondition. -/
def long_message : String := String.mk (List.replicate 501 ('x'))

/-- The spec's `validate(patientId, doctorId)`, written from the spec's
words (section 4.1): both formats must match in full. -/
def specValidate (p d0 : String) : Bool :=
  specPatientFormat p && specDoctorFormat d0

/- ### Theorems -/

theorem handle_appointment_of_gate_false (pid t : Option String) (db : DbOutcome)
    (h : patient_gate pid = false) :
    handle_appointment pid t db = (invalid_id_msg, false) := by
  simp [handle_appointment, h]

theorem handle_appointment_of_type_false (pid t : Option String) (db : DbOutcome)
    (h1 : patient_gate pid = true) (h2 : type_gate t = false) :
    handle_appointment pid t db = (invalid_type_msg, false) := by
  simp [handle_appointment, h1, h2]

theorem handle_appointment_of_gates_true (pid t : Option String) (db : DbOutcome)
    (h1 : patient_gate pid = true) (h2 : type_gate t = true) :
    handle_appointment pid t db =
      (match db with
        | DbOutcome.ok i time =>
          (("Appointment ") ++ Nat.repr i ++ (" booked for ") ++ time, true)
        | DbOutcome.err m => (("Booking failed: ") ++ m, true)) := by
  simp [handle_appointment, h1, h2]

/-- Claim C7: `check_availability` returns true exactly when no
non-cancelled appointment row exists for that doctor and slot, and it
returns the store unchanged (read-only). -/
theorem check_availability_reads_store (db : Store) (d : String) (s : Nat) :
    ((check_availability db d s).1 = true ↔
      ∀ r ∈ db, ¬(r.doctor_id = d ∧ r.slot = s ∧ r.status ≠ ("cancelled"))) ∧
    (check_availability db d s).2 = db := by
  constructor
  · simp [check_availability, countNonCancelled, List.length_eq_zero,
      List.filter_eq_nil_iff]
  · rfl

/-- Claim C7 witness: the characterization applied to a one-row store. -/
theorem check_availability_reads_store_w :
    (((check_availability [⟨1, ("PAT-1111"), ("DR-456"), 14, ("cancelled")⟩]
        ("DR-456") 14).1 = true ↔
      ∀ r ∈ ([⟨1, ("PAT-1111"), ("DR-456"), 14, ("cancelled")⟩] : Store),
        ¬(r.doctor_id = ("DR-456") ∧ r.slot = 14 ∧ r.status ≠ ("cancelled"))) ∧
    (check_availability [⟨1, ("PAT-1111"), ("DR-456"), 14, ("cancelled")⟩]
        ("DR-456") 14).2 = [⟨1, ("PAT-1111"), ("DR-456"), 14, ("cancelled")⟩]) :=
  check_availability_reads_store [⟨1, ("PAT-1111"), ("DR-456"), 14, ("cancelled")⟩]
    ("DR-456") 14

/-- Claim C3: when the identifier validation of the booking step fails,
the reply is the validation error message, the store is not reached,
and the reply does not trip the notifier trigger of the web layer. -/
theorem validation_failure_short_circuits (pid t : Option String) (db : DbOutcome)
    (h : patient_gate pid = false) :
    handle_appointment pid t db = (invalid_id_msg, false) ∧
    booking_intent invalid_id_msg = false :=
  ⟨handle_appointment_of_gate_false pid t db h, by decide⟩

/-- Claim C3 witness: a booking attempt with no patient id. -/
theorem validation_failure_short_circuits_w :
    handle_appointment none (some ("checkup")) (DbOutcome.ok 1 ("tomorrow")) =
      (invalid_id_msg, false) ∧
    booking_intent invalid_id_msg = false :=
  validation_failure_short_circuits none (some ("checkup"))
    (DbOutcome.ok 1 ("tomorrow")) rfl

/-- Claim C2 counterexample: `PAT-12` does not match the spec's
`PAT-` + four digits format, yet the source's gate accepts it and the
booking step proceeds all the way to the store. -/
theorem malformed_patient_id_reaches_store :
    specValidate ("PAT-12") ("DR-456") = false ∧
    patient_gate (some ("PAT-12")) = true ∧
    (handle_appointment (some ("PAT-12")) (some ("checkup"))
      (DbOutcome.ok 7 ("tomorrow 2 PM"))).2 = true := by
  decide

/-- Claim C2 as amended: the pre-booking validation rejects exactly when
the patient id is absent, empty, or lacks the `PAT-` lead; the digit
count is never checked and the doctor id is not examined at all (it is
not even part of the booking state). Every id the spec format accepts
is accepted, but not conversely. -/
theorem id_validation_is_lead_check_only :
    (∀ (pid t : Option String) (db : DbOutcome),
      handle_appointment pid t db = (invalid_id_msg, false) ↔
        patient_gate pid = false) ∧
    (∀ p : String, specPatientFormat p = true → patient_gate (some p) = true) := by
  constructor
  · intro pid t db
    constructor
    · intro h
      by_contra hg
      rw [Bool.not_eq_false] at hg
      cases ht : type_gate t with
      | false =>
        rw [handle_appointment_of_type_false pid t db hg ht] at h
        exact absurd (congrArg Prod.fst h) (by decide)
      | true =>
        cases db with
        | ok i time => simp [handle_appointment, hg, ht] at h
        | err m => simp [handle_appointment, hg, ht] at h
    · exact handle_appointment_of_gate_false pid t db
  · intro p hp
    unfold specPatientFormat at hp
    unfold patient_gate
    rw [Bool.and_eq_true, Bool.and_eq_true, Bool.and_eq_true] at hp
    have hlead : seqStarts (("PAT-").data) p.data = true := hp.1.1.1
    have hlen : (p.data.length == 8) = true := hp.2
    rw [Bool.and_eq_true]
    refine ⟨?_, hlead⟩
    have hne : p ≠ ("") := by
      intro he
      rw [he] at hlen
      exact absurd hlen (by decide)
    simpa using hne

/-- Claim C2 witness: the characterization applied to `PAT-1234`. -/
theorem id_validation_is_lead_check_only_w :
    (handle_appointment (some ("PAT-1234")) (some ("checkup"))
        (DbOutcome.ok 1 ("tomorrow")) = (invalid_id_msg, false) ↔
      patient_gate (some ("PAT-1234")) = false) ∧
    patient_gate (some ("PAT-1234")) = true :=
  ⟨id_validation_is_lead_check_only.1 (some ("PAT-1234")) (some ("checkup"))
      (DbOutcome.ok 1 ("tomorrow")),
    id_validation_is_lead_check_only.2 ("PAT-1234") rfl⟩

/-- Claim C10 counterexample: a booking attempt whose appointment type
is missing (hence invalid) but whose patient id also fails its gate
gets the patient-id error, which does not list the valid types. -/
theorem missing_type_can_skip_type_message :
    (handle_appointment none none (DbOutcome.ok 1 ("tomorrow"))).1 = invalid_id_msg ∧
    seqContains (("checkup").data)
      ((handle_appointment none none (DbOutcome.ok 1 ("tomorrow"))).1.data) = false := by
  decide

/-- Claim C10 as amended: once the patient-id gate has passed, an
appointment type outside the valid set (or missing) yields the reply
listing the valid types, and the store is not reached. -/
theorem invalid_type_lists_valid_types (pid t : Option String) (db : DbOutcome)
    (h1 : patient_gate pid = true) (h2 : type_gate t = false) :
    handle_appointment pid t db = (invalid_type_msg, false) ∧
    valid_types.all (fun ty => seqContains ty.data invalid_type_msg.data) = true :=
  ⟨handle_appointment_of_type_false pid t db h1 h2, by decide⟩

/-- Claim C10 witness: a well-formed patient id with an unknown type. -/
theorem invalid_type_lists_valid_types_w :
    handle_appointment (some ("PAT-1234")) (some ("surgery"))
      (DbOutcome.ok 1 ("tomorrow")) = (invalid_type_msg, false) ∧
    valid_types.all (fun ty => seqContains ty.data invalid_type_msg.data) = true :=
  invalid_type_lists_valid_types (some ("PAT-1234")) (some ("surgery"))
    (DbOutcome.ok 1 ("tomorrow")) rfl rfl

/-- Claim C8 counterexample: a database error's raw text appears
verbatim inside the user-visible booking reply. -/
theorem raw_db_error_text_reaches_reply :
    (handle_appointment (some ("PAT-1234")) (some ("checkup"))
      (DbOutcome.err ("connection refused"))).1 =
        ("Booking failed: connection refused") ∧
    seqContains (("connection refused").data)
      ((handle_appointment (some ("PAT-1234")) (some ("checkup"))
        (DbOutcome.err ("connection refused"))).1.data) = true := by
  decide

/-- Claim C8 as amended: the websocket layer translates errors to short
fixed messages, but the booking-failure reply of `handle_appointment`
embeds the raw database exception text after `Booking failed: `. -/
theorem booking_failure_reply_embeds_db_error (m : String) :
    handle_appointment (some ("PAT-1234")) (some ("checkup")) (DbOutcome.err m) =
      (("Booking failed: ") ++ m, true) ∧
    websocket_generic_error_reply = ("Sorry, we encountered an error") ∧
    (∀ d : String, websocket_http_error_reply d = ("Error: ") ++ d) :=
  ⟨rfl, rfl, fun _ => rfl⟩

/-- Claim C1 counterexample: interleaving two booking attempts for the
identical (doctor, slot) as check-check-insert-insert makes both
succeed and leaves two non-cancelled rows — the availability check is
a separate transaction from the insert, so the invariant is not
enforced. -/
theorem interleaved_attempts_double_book :
    (runSched ⟨1, ("PAT-1111"), ("DR-456"), 14⟩ ⟨2, ("PAT-2222"), ("DR-456"), 14⟩
        [false, true, false, true] ([], bookInit, bookInit)).2.1.result = some 1 ∧
    (runSched ⟨1, ("PAT-1111"), ("DR-456"), 14⟩ ⟨2, ("PAT-2222"), ("DR-456"), 14⟩
        [false, true, false, true] ([], bookInit, bookInit)).2.2.result = some 2 ∧
    countNonCancelled
      (runSched ⟨1, ("PAT-1111"), ("DR-456"), 14⟩ ⟨2, ("PAT-2222"), ("DR-456"), 14⟩
        [false, true, false, true] ([], bookInit, bookInit)).1 ("DR-456") 14 = 2 := by
  decide

/-- Claim C1 as amended: `check_availability` and `create_appointment`
each run in their own transaction on their own connection, so for
every doctor and slot the interleaving check-check-insert-insert of
two booking attempts starting from an empty store lets both succeed
and ends with two non-cancelled appointments for that pair; the
at-most-one invariant is not enforced by the code. -/
theorem separate_transactions_allow_double_booking (d : String) (s : Nat) :
    (runSched ⟨1, ("PAT-1111"), d, s⟩ ⟨2, ("PAT-2222"), d, s⟩
        [false, true, false, true] ([], bookInit, bookInit)).2.1.result = some 1 ∧
    (runSched ⟨1, ("PAT-1111"), d, s⟩ ⟨2, ("PAT-2222"), d, s⟩
        [false, true, false, true] ([], bookInit, bookInit)).2.2.result = some 2 ∧
    countNonCancelled
      (runSched ⟨1, ("PAT-1111"), d, s⟩ ⟨2, ("PAT-2222"), d, s⟩
        [false, true, false, true] ([], bookInit, bookInit)).1 d s = 2 := by
  simp [runSched, bookStep, bookInit, check_availability, create_appointment,
    countNonCancelled]

theorem runTurn_with_ok_retriever (ctx : String → String) (draft : String)
    (db : DbOutcome) (msgs : List String) (m c0 : String) (pid t : Option String) :
    runTurn (fun q => Except.ok (ctx q)) draft db ⟨msgs ++ [m], c0, pid, t⟩ =
      (if booking_intent draft then
        Except.ok (⟨((msgs ++ [m]) ++ [draft]) ++
            [(handle_appointment pid t db).1], ctx m, pid, t⟩,
          [("retrieve"), ("generate"), ("book_appointment")])
      else
        Except.ok (⟨(msgs ++ [m]) ++ [draft], ctx m, pid, t⟩,
          [("retrieve"), ("generate")])) := by
  simp only [runTurn, List.getLast?_concat]

/-- Claim C6: a turn whose retrieval succeeds reaches the
book_appointment node exactly when the draft reply carries the `book`
keyword; otherwise the turn ends at the generate node with the draft
as the last (final) message. -/
theorem booking_route_iff_intent (ctx : String → String) (draft : String)
    (db : DbOutcome) (msgs : List String) (m : String) (pid t : Option String) :
    ∃ st2 v, runTurn (fun q => Except.ok (ctx q)) draft db
        ⟨msgs ++ [m], (""), pid, t⟩ = Except.ok (st2, v) ∧
      v.contains ("book_appointment") = booking_intent draft ∧
      (booking_intent draft = true ∨ st2.messages.getLast? = some draft) := by
  cases hb : booking_intent draft with
  | true =>
    refine ⟨⟨((msgs ++ [m]) ++ [draft]) ++ [(handle_appointment pid t db).1],
      ctx m, pid, t⟩,
      [("retrieve"), ("generate"), ("book_appointment")], ?_, ?_, Or.inl rfl⟩
    · rw [runTurn_with_ok_retriever, hb]
      rfl
    · decide
  | false =>
    refine ⟨⟨(msgs ++ [m]) ++ [draft], ctx m, pid, t⟩,
      [("retrieve"), ("generate")], ?_, ?_, Or.inr ?_⟩
    · rw [runTurn_with_ok_retriever, hb]
      rfl
    · decide
    · exact List.getLast?_concat _

/-- Claim C9 counterexample: an empty corpus makes the knowledge-base
setup raise a ValueError instead of yielding an empty result; the
module-level initializer then leaves the retriever unset. -/
theorem empty_corpus_setup_raises :
    setup_knowledge_base [] =
      Except.error ("No valid documents available for processing") ∧
    clinic_retriever_init [] = none :=
  ⟨rfl, rfl⟩

/-- Claim C9 as amended: `load_documents` does return an empty list for
an empty corpus, but `setup_knowledge_base` then raises on it, and a
retrieval failure inside `retrieve_docs` propagates out of the turn
instead of degrading to an empty-context reply. -/
theorem retrieval_failure_aborts_turn :
    load_documents [] = [] ∧
    setup_knowledge_base [] =
      Except.error ("No valid documents available for processing") ∧
    (∀ (e draft : String) (db : DbOutcome) (msgs : List String) (m c0 : String)
      (pid t : Option String),
      runTurn (fun _ => Except.error e) draft db ⟨msgs ++ [m], c0, pid, t⟩ =
        Except.error e) := by
  refine ⟨rfl, rfl, ?_⟩
  intro e draft db msgs m c0 pid t
  simp only [runTurn, List.getLast?_concat]

/-- Claim C4: at the failing input — preferred channel `email`, both
contacts set and valid for their formats, the email provider failing —
the source calls `_send_email_with_fallback` with two arguments
instead of its declared three, so a TypeError is raised inside the
`try` before any provider call: the result is the generic
delivery-failed dictionary with an empty provider-call trace, and the
secondary channel is never attempted. By contrast, with preferred
channel `sms` and both providers failing, the email fallback is
attempted (once, with its own two bounded retries) and both failures
yield the delivery-failed dictionary with no escaping exception. -/
theorem email_preferred_send_hits_arity_bug :
    validate_contact_info ("doc@clinic.org") ("email") = true ∧
    validate_contact_info ("+15551234567") ("sms") = true ∧
    send_notification ⟨("email"), some ("+15551234567"), some ("doc@clinic.org")⟩
      ⟨true, false⟩ ("New appointment request: checkup") =
      (1, [], Except.ok (("error"), ("Notification delivery failed"))) ∧
    send_notification ⟨("sms"), some ("+15551234567"), some ("doc@clinic.org")⟩
      ⟨false, false⟩ ("Appointment update") =
      (1, [⟨Channel.sms, ("+15551234567"), ("Appointment update")⟩,
        ⟨Channel.sms, ("+15551234567"), ("Appointment update")⟩,
        ⟨Channel.email, ("doc@clinic.org"), ("Appointment update")⟩,
        ⟨Channel.email, ("doc@clinic.org"), ("Appointment update")⟩],
        Except.ok (("error"), ("Notification delivery failed"))) :=
  ⟨by decide, by decide, rfl, rfl⟩

set_option maxRecDepth 8000 in
/-- Claim C5: at the failing inputs — an empty message, and a
501-character message — the body raises its ValueError before any
provider call, but the tenacity wrapper re-invokes it two more times,
so the rejection is retried three times in total before a RetryError
propagates to the caller; the provider-call trace stays empty. -/
theorem message_validation_is_retried :
    send_notification ⟨("sms"), some ("+15551234567"), some ("doc@clinic.org")⟩
      ⟨true, true⟩ ("") =
      (3, [], Except.error (PyExc.retryError
        (PyExc.valueError ("Invalid message length")))) ∧
    long_message.length = 501 ∧
    send_notification ⟨("sms"), some ("+15551234567"), some ("doc@clinic.org")⟩
      ⟨true, true⟩ long_message =
      (3, [], Except.error (PyExc.retryError
        (PyExc.valueError ("Invalid message length")))) :=
  ⟨rfl, rfl, rfl⟩
